import Mathlib

/-!
Verification of the repository/aggregation layer of `motif-api`.

The Go sources embedded here:
* `internal/repository/rpc/defi_settings.go` — `DefiConfiguration`,
  `pullSetOfDefiConfigValues`, `pullDefiDecimalCorrection`,
  `pullDefiConfigValue`, `AccountBalance`, `AccountNonce`;
* `internal/graphql/resolvers/erc20.go` — `NewErc20Token`;
* `internal/config/default.go` — the default DeFi configuration constants.

Go conventions are embedded as follows: a Go function returning
`(*T, error)` becomes a Lean function into `Except GoError T` (the
`error` branch corresponds to a nil pointer plus a non-nil error); a Go
pair-return `(val *big.Int, err error)` observed by a caller that
inspects both components becomes `Option Int × Option GoError`; remote
calls are parameters holding the call outcome, since the bridge itself
performs no retries or caching.  Machine integers are `Nat` with
explicit `% 2 ^ 64` where Go truncates (`big.Int.Uint64`).
-/

namespace MotifApi

/-- Errors produced by the bridge, separated by the transport layer that
raised them: `transport` (node unreachable), `remote` (node executed the
call but reported failure), and `errorf` for errors built locally with
`fmt.Errorf`.  Equality is by constructor and message, mirroring Go
error comparison by value in the embedded code. -/
inductive GoError where
  | transport (msg : String)
  | remote (msg : String)
  | errorf (msg : String)
  deriving DecidableEq

/-- Outcome of one Go contract-call loader `func(*bind.CallOpts) (*big.Int, error)`:
the returned big-integer pointer (`none` = nil) and the returned error
(`none` = nil). -/
abbrev LoaderResult : Type := Option Int × Option GoError

/-- `pullDefiConfigValue` (defi_settings.go lines 123–136): checks the
loader error first, then rejects a nil value with
`fmt.Errorf("defi config value not available")`, and only otherwise
returns the loaded value. -/
def pullDefiConfigValue (res : LoaderResult) : Except GoError Int :=
  match res.2 with
  | some e => .error e
  | none =>
    match res.1 with
    | none => .error (.errorf "defi config value not available")
    | some v => .ok v

/-- The three destination slots of the `tConfigItemsLoaders` map built in
`DefiConfiguration` (defi_settings.go lines 61–65): the Go map keys are
pointers to these fields of the `DefiSettings` record. -/
inductive Slot where
  | mintFee4
  | minCollateralRatio4
  | rewardCollateralRatio4
  deriving DecidableEq

/-- A contract address: a 20-byte identifier, embedded as its value
below `2 ^ 160`; equality of addresses is equality of these values
(byte-wise equality in the source). -/
abbrev Address : Type := Nat

/-- `types.DefiSettings` as used by `DefiConfiguration`: seven contract
address fields, three remotely loaded scaled values (`hexutil.Big`,
embedded as `Int`), and the decimal correction (`int32`; the loop in
`pullDefiDecimalCorrection` increments it at most 19 times starting from
zero, so no 32-bit overflow arises and it is embedded as `Int`). -/
structure DefiSettings where
  fMintContract : Address
  fMintAddressProvider : Address
  fMintTokenRegistry : Address
  fMintRewardDistribution : Address
  fMintCollateralPool : Address
  fMintDebtPool : Address
  priceOracleAggregate : Address
  mintFee4 : Int
  minCollateralRatio4 : Int
  rewardCollateralRatio4 : Int
  decimals : Int
  deriving DecidableEq

/-- Writing through one pointer key of the loaders map: `*ref = v` for
the field the slot points at. -/
def setSlot (ds : DefiSettings) (s : Slot) (v : Int) : DefiSettings :=
  match s with
  | .mintFee4 => { ds with mintFee4 := v }
  | .minCollateralRatio4 => { ds with minCollateralRatio4 := v }
  | .rewardCollateralRatio4 => { ds with rewardCollateralRatio4 := v }

/-- `pullSetOfDefiConfigValues` (defi_settings.go lines 107–120).  The Go
`for ref, fn := range loaders` loop visits the map entries in an
iteration order the language leaves unspecified, so the embedding takes
the entries as a list in the order the runtime happens to produce.  Each
step writes `*ref, err = pullDefiConfigValue(fn)` — on failure the zero
value is still written to the slot before the error is returned — and
returns at the first error.  The result is the mutated record together
with the returned error (`none` = nil). -/
def pullSetOfDefiConfigValues (ds : DefiSettings) :
    List (Slot × LoaderResult) → DefiSettings × Option GoError
  | [] => (ds, none)
  | (s, r) :: rest =>
    match pullDefiConfigValue r with
    | .error e => (setSlot ds s 0, some e)
    | .ok v => pullSetOfDefiConfigValues (setSlot ds s v) rest

/-- The counting loop of `pullDefiDecimalCorrection` (defi_settings.go
lines 94–99): `for value > 1 { value /= 10; dec++ }`. -/
def decCountLoop (value dec : Nat) : Nat :=
  if 1 < value then decCountLoop (value / 10) (dec + 1) else dec
termination_by value
decreasing_by exact Nat.div_lt_self (by omega) (by omega)

/-- Go `big.Int.Uint64` as invoked on a loaded config value: it returns
the low 64 bits of the absolute value of the big integer. -/
def bigUint64 (v : Int) : Nat := v.natAbs % 2 ^ 64

/-- `pullDefiDecimalCorrection` (defi_settings.go lines 85–103): loads
the digits-correction value through `pullDefiConfigValue`, truncates it
with `Uint64`, and counts divisions by ten while the value stays above
one.  Go returns `(0, err)` on failure; only the error is observable
then, so the embedding is `Except`. -/
def pullDefiDecimalCorrection (r : LoaderResult) : Except GoError Int :=
  match pullDefiConfigValue r with
  | .error e => .error e
  | .ok v => .ok (Int.ofNat (decCountLoop (bigUint64 v) 0))

/-- Hexadecimal digit value, accepted case-insensitively. -/
def hexDigitVal (c : Char) : Option Nat :=
  if '0' ≤ c ∧ c ≤ '9' then some (c.toNat - '0'.toNat)
  else if 'a' ≤ c ∧ c ≤ 'f' then some (c.toNat - 'a'.toNat + 10)
  else if 'A' ≤ c ∧ c ≤ 'F' then some (c.toNat - 'A'.toNat + 10)
  else none

/-- Big-endian hex parsing of a digit run; `none` when any character is
not a hex digit. -/
def parseHexDigits (acc : Nat) : List Char → Option Nat
  | [] => some acc
  | c :: rest =>
    match hexDigitVal c with
    | none => none
    | some d => parseHexDigits (acc * 16 + d) rest

/-- Modelled from the spec: `fMintConfig.mustContractAddress` (type not
under src/) resolves the textual form of a pre-known contract address to
its fixed-width 20-byte form, trusted as given — "a fixed table of
pre-known contract addresses (never fetched remotely, trusted as
configured)"; the textual form is case-insensitive.  Embedded as hex
parsing of the `0x`-prefixed literal into the 160-bit address value. -/
def mustContractAddress (s : String) : Address :=
  (parseHexDigits 0 (s.data.drop 2)).getD 0 % 2 ^ 160

/-- The default fMint address-provider address from
`internal/config/default.go` line 72 (`defDefiFMintAddressProvider`). -/
def defDefiFMintAddressProvider : String :=
  "0x08aa8b88721853c62cc8192da8f24aeb94aaeb66"

/-- The remote outcomes a single `DefiConfiguration` run observes: the
`fMintMinterContract()` access (its error, if any), the three config
loaders bound in the `tConfigItemsLoaders` map, and the
`FMintFeeDigitsCorrection` loader used for the decimal correction. -/
structure DefiLoaderOutcomes where
  contractAccess : Option GoError
  mintFee4 : LoaderResult
  minCollateralRatio4 : LoaderResult
  rewardCollateralRatio4 : LoaderResult
  feeDigitsCorrection : LoaderResult

/-- The loader bound to each slot in the `tConfigItemsLoaders` map
(defi_settings.go lines 61–65): `GetFMintFee4dec`,
`GetCollateralLowestDebtRatio4dec`, `GetRewardEligibilityRatio4dec`. -/
def slotLoader (o : DefiLoaderOutcomes) : Slot → LoaderResult
  | .mintFee4 => o.mintFee4
  | .minCollateralRatio4 => o.minCollateralRatio4
  | .rewardCollateralRatio4 => o.rewardCollateralRatio4

/-- The `DefiSettings` container as `DefiConfiguration` creates it
(defi_settings.go lines 39–47): the seven address fields are seeded from
the hard-coded hexadecimal literals in the source — the configuration-
driven seeding is present only as commented-out code (lines 49–55) — and
the numeric fields start at their Go zero values. -/
def initialSettings : DefiSettings :=
  { fMintContract := mustContractAddress "0x4acb55fe5f0b7c487edec3862079aa36ab054358"
    fMintAddressProvider := mustContractAddress "0xdeec401e448d5d9132eb79ac84eb3f212d7759fb"
    fMintTokenRegistry := mustContractAddress "0x60092e344c63c6628ec77926e508f9a9c80553ef"
    fMintRewardDistribution := mustContractAddress "0x0039597eb5aa5760e8db15fbe525e56aa661ef26"
    fMintCollateralPool := mustContractAddress "0x6d5f2f2e391f47a1075df4d39a24286c63c0e70c"
    fMintDebtPool := mustContractAddress "0xe2d1105f35649bf16deebccec1f2100dcb9aadf5"
    priceOracleAggregate := mustContractAddress "0xA1EA42f737bb2E09b0AE4DE001eE06e3BC484fE5"
    mintFee4 := 0
    minCollateralRatio4 := 0
    rewardCollateralRatio4 := 0
    decimals := 0 }

/-- `DefiConfiguration` (defi_settings.go lines 31–81): access the minter
contract, seed the container, pull the three config values through
`pullSetOfDefiConfigValues` (aborting with `nil, err` on failure), pull
the decimal correction (aborting with `nil, err` on failure), and only
then return the populated record.  `order` is the iteration order the Go
runtime produces for the loaders map. -/
def DefiConfiguration (order : List Slot) (o : DefiLoaderOutcomes) :
    Except GoError DefiSettings :=
  match o.contractAccess with
  | some e => .error e
  | none =>
    match pullSetOfDefiConfigValues initialSettings
        (order.map fun s => (s, slotLoader o s)) with
    | (_, some e) => .error e
    | (ds, none) =>
      match pullDefiDecimalCorrection o.feeDigitsCorrection with
      | .error e => .error e
      | .ok dec => .ok { ds with decimals := dec }

/-- Whether the textual input begins with `0x` or `0X`, as the
go-ethereum `hexutil` number check requires. -/
def hexMarked : List Char → Bool
  | c0 :: c1 :: _ => c0 = '0' ∧ (c1 = 'x' ∨ c1 = 'X')
  | _ => false

/-- go-ethereum `hexutil.checkNumber`: rejects an empty input, an input
without the `0x` mark, a bare `0x`, and leading zero digits; otherwise
yields the digit run after the mark. -/
def checkNumber (input : List Char) : Except GoError (List Char) :=
  if input.isEmpty then .error (.errorf "empty hex string")
  else if ¬ hexMarked input then .error (.errorf "hex string without 0x prefix")
  else
    let raw := input.drop 2
    if raw.isEmpty then .error (.errorf "hex string \"0x\"")
    else if 1 < raw.length ∧ raw.head? = some '0' then
      .error (.errorf "hex number with leading zero digits")
    else .ok raw

/-- go-ethereum `hexutil.DecodeBig`: checks the number shape, bounds the
digit run at 64 hex digits (256 bits), and parses it big-endian;
an invalid digit is a syntax error.  The decoded value is a non-negative
big integer. -/
def DecodeBig (input : String) : Except GoError Int :=
  match checkNumber input.data with
  | .error e => .error e
  | .ok raw =>
    if 64 < raw.length then .error (.errorf "hex number > 256 bits")
    else
      match parseHexDigits 0 raw with
      | none => .error (.errorf "invalid hex string")
      | some n => .ok (Int.ofNat n)

/-- go-ethereum `hexutil.DecodeUint64`: checks the number shape and
parses the run as an unsigned 64-bit integer; an invalid digit is a
syntax error and a value at or above `2 ^ 64` is a range error. -/
def DecodeUint64 (input : String) : Except GoError Nat :=
  match checkNumber input.data with
  | .error e => .error e
  | .ok raw =>
    match parseHexDigits 0 raw with
    | none => .error (.errorf "invalid hex string")
    | some n => if n < 2 ^ 64 then .ok n else .error (.errorf "hex number > 64 bits")

/-- `AccountBalance` (the second rpc source file, lines 158–175): issue
`ftm_getBalance`, propagate a call error, otherwise decode the response
with `hexutil.DecodeBig` and propagate a decode error.  The remote call
outcome is the parameter. -/
def AccountBalance (res : Except GoError String) : Except GoError Int :=
  match res with
  | .error e => .error e
  | .ok balance =>
    match DecodeBig balance with
    | .error e => .error e
    | .ok v => .ok v

/-- `AccountNonce` (the second rpc source file, lines 178–195): issue
`ftm_getTransactionCount`, propagate a call error, otherwise decode with
`hexutil.DecodeUint64` and propagate a decode error. -/
def AccountNonce (res : Except GoError String) : Except GoError Nat :=
  match res with
  | .error e => .error e
  | .ok nonce =>
    match DecodeUint64 nonce with
    | .error e => .error e
    | .ok v => .ok v

/-- `types.Erc20Token` as the resolver uses it: the token record the
repository probe returns on success (only its address matters here). -/
structure Erc20Token where
  address : Address
  deriving DecidableEq

/-- The resolver wrapper `ERC20Token` (erc20.go lines 12–14). -/
structure ERC20Token where
  token : Erc20Token
  deriving DecidableEq

/-- `NewErc20Token` (erc20.go lines 19–27): runs the existence probe
`repository.R().Erc20Token(adr)` — its outcome is the parameter — and
returns nil (`none`) whenever the probe reports any error, otherwise
wraps the returned token.  The Go return type is a bare pointer with no
error channel. -/
def NewErc20Token (probe : Except GoError Erc20Token) : Option ERC20Token :=
  match probe with
  | .error _ => none
  | .ok erc20 => some { token := erc20 }

/-- The error (if any) a loader outcome produces through
`pullDefiConfigValue`. -/
def loaderError (r : LoaderResult) : Option GoError :=
  match pullDefiConfigValue r with
  | .error e => some e
  | .ok _ => none

/-- The first error among the slots in iteration order, the error
`pullSetOfDefiConfigValues` is expected to surface. -/
def firstLoaderError (o : DefiLoaderOutcomes) : List Slot → Option GoError
  | [] => none
  | s :: rest =>
    match loaderError (slotLoader o s) with
    | some e => some e
    | none => firstLoaderError o rest

/-- Equality of embedded Go call results is decidable; the instance lets
concrete runs of the embedded functions be checked by evaluation. -/
instance {ε α : Type} [DecidableEq ε] [DecidableEq α] : DecidableEq (Except ε α) :=
  fun a b =>
    match a, b with
    | .error x, .error y => decidable_of_iff (x = y) (by simp)
    | .ok x, .ok y => decidable_of_iff (x = y) (by simp)
    | .error _, .ok _ => isFalse (fun h => by cases h)
    | .ok _, .error _ => isFalse (fun h => by cases h)

/-- One iteration order the Go runtime may produce for the three-entry
loaders map: the declaration order of `tConfigItemsLoaders` in the
source. -/
def mapOrder : List Slot :=
  [.mintFee4, .minCollateralRatio4, .rewardCollateralRatio4]

/-- Another admissible iteration order of the same map: the first two
entries swapped. -/
def mapOrderSwapped : List Slot :=
  [.minCollateralRatio4, .mintFee4, .rewardCollateralRatio4]

/-- A run in which every remote loader succeeds. -/
def outcomeAllOk : DefiLoaderOutcomes :=
  { contractAccess := none
    mintFee4 := (some 25, none)
    minCollateralRatio4 := (some 30000, none)
    rewardCollateralRatio4 := (some 15000, none)
    feeDigitsCorrection := (some 10000, none) }

/-- A run in which only the mint-fee loader fails. -/
def outcomeMintFails : DefiLoaderOutcomes :=
  { outcomeAllOk with mintFee4 := (none, some (.remote "execution reverted")) }

/-- A run in which only the collateral-ratio loader fails, with the same
underlying error text as `outcomeMintFails`. -/
def outcomeMinCollateralFails : DefiLoaderOutcomes :=
  { outcomeAllOk with
    minCollateralRatio4 := (none, some (.remote "execution reverted")) }

/-- A run in which two loaders fail with distinct underlying errors. -/
def outcomeBothFail : DefiLoaderOutcomes :=
  { outcomeAllOk with
    mintFee4 := (none, some (.remote "mint fee loader failed"))
    minCollateralRatio4 := (none, some (.remote "collateral ratio loader failed")) }

/-! ## Helper lemmas -/

/-- The error component returned by `pullSetOfDefiConfigValues` is the
first loader error in the iteration order, independent of the record
being filled. -/
theorem pullSet_snd_eq (o : DefiLoaderOutcomes) (order : List Slot) :
    ∀ ds : DefiSettings,
      (pullSetOfDefiConfigValues ds (order.map fun s => (s, slotLoader o s))).2 =
        firstLoaderError o order := by
  induction order with
  | nil => intro ds; rfl
  | cons s rest ih =>
    intro ds
    simp only [List.map_cons, pullSetOfDefiConfigValues, firstLoaderError, loaderError]
    cases h : pullDefiConfigValue (slotLoader o s) with
    | error e => simp
    | ok v => simpa using ih (setSlot ds s v)

/-- The accumulator of the counting loop only shifts the result. -/
theorem decCountLoop_shift (x : Nat) :
    ∀ d : Nat, decCountLoop x d = decCountLoop x 0 + d := by
  induction x using Nat.strong_induction_on with
  | _ x ih =>
    intro d
    rw [decCountLoop]
    conv_rhs => rw [decCountLoop]
    by_cases h : 1 < x
    · rw [if_pos h, if_pos h,
        ih (x / 10) (Nat.div_lt_self (by omega) (by omega)) (d + 1),
        ih (x / 10) (Nat.div_lt_self (by omega) (by omega)) (0 + 1)]
      omega
    · rw [if_neg h, if_neg h]
      omega

/-! ## Claims -/

/-- C1 (counterexample).  The error `DefiConfiguration` returns on a
loader failure does not identify the failed slot: two runs whose only
failing loaders are different slots — `MintFee4` in one,
`MinCollateralRatio4` in the other — return the very same error value,
the loader's own error propagated verbatim, so no caller can recover
from the returned error which named slot failed. -/
theorem aggregationError_lacks_slot_identity :
    DefiConfiguration mapOrder outcomeMintFails =
      DefiConfiguration mapOrder outcomeMinCollateralFails
    ∧ DefiConfiguration mapOrder outcomeMintFails =
        .error (.remote "execution reverted")
    ∧ loaderError (slotLoader outcomeMintFails .mintFee4) =
        some (.remote "execution reverted")
    ∧ loaderError (slotLoader outcomeMintFails .minCollateralRatio4) = none
    ∧ loaderError (slotLoader outcomeMinCollateralFails .minCollateralRatio4) =
        some (.remote "execution reverted")
    ∧ loaderError (slotLoader outcomeMinCollateralFails .mintFee4) = none :=
  ⟨rfl, rfl, rfl, rfl, rfl, rfl⟩

/-- C1 (amended).  If any sub-loader fails during the DeFi settings
aggregation, `DefiConfiguration` aborts at the first loader error in the
map iteration order and returns that error with no settings record (the
Go result is nil plus the error); the error is the failing loader's
underlying error propagated verbatim, without naming the failed slot. -/
theorem defiConfiguration_fail_fast (order : List Slot) (o : DefiLoaderOutcomes)
    (e : GoError) (hc : o.contractAccess = none)
    (he : firstLoaderError o order = some e) :
    DefiConfiguration order o = .error e := by
  unfold DefiConfiguration
  rw [hc]
  have h := pullSet_snd_eq o order initialSettings
  rw [he] at h
  rcases hres : pullSetOfDefiConfigValues initialSettings
      (order.map fun s => (s, slotLoader o s)) with ⟨ds1, err⟩
  rw [hres] at h
  simp at h
  rw [h]

/-- C1 witness: a concrete failing run. -/
theorem defiConfiguration_fail_fast_witness :
    outcomeMintFails.contractAccess = none
    ∧ firstLoaderError outcomeMintFails mapOrder = some (.remote "execution reverted")
    ∧ DefiConfiguration mapOrder outcomeMintFails = .error (.remote "execution reverted") :=
  ⟨rfl, by decide,
    defiConfiguration_fail_fast mapOrder outcomeMintFails _ rfl (by decide)⟩

/-- C2.  The decimal-correction computation divides the fetched scale
factor by ten while it stays above one, counting divisions: a loaded 10
yields 1, a loaded 10000 yields 4, a loaded 1 yields 0, and a loaded 0
yields 0. -/
theorem pullDefiDecimalCorrection_spec_values :
    pullDefiDecimalCorrection (some 10, none) = .ok 1
    ∧ pullDefiDecimalCorrection (some 10000, none) = .ok 4
    ∧ pullDefiDecimalCorrection (some 1, none) = .ok 0
    ∧ pullDefiDecimalCorrection (some 0, none) = .ok 0 := by
  refine ⟨?_, ?_, ?_, ?_⟩ <;>
    simp [pullDefiDecimalCorrection, pullDefiConfigValue, bigUint64, decCountLoop]

/-- C3 (counterexample).  A transport-level probe failure does not
propagate as an error from `NewErc20Token`: the function returns nil for
it, exactly as it does for a remote probe failure, so the two outcomes
are not distinguishable by the caller (the Go return type is a bare
pointer with no error channel). -/
theorem newErc20Token_transport_error_yields_nil :
    NewErc20Token (.error (.transport "node unreachable")) = none
    ∧ NewErc20Token (.error (.transport "node unreachable")) =
        NewErc20Token (.error (.remote "execution reverted")) :=
  ⟨rfl, rfl⟩

/-- C3 (amended).  `NewErc20Token` resolves every failed existence probe
— remote failure and transport failure alike — to the explicit absence
nil, and wraps the probed token on success; no error is ever propagated
to the caller. -/
theorem newErc20Token_nil_on_any_probe_error (e : GoError) (t : Erc20Token) :
    NewErc20Token (.error e) = none
    ∧ NewErc20Token (.ok t) = some { token := t } :=
  ⟨rfl, rfl⟩

/-- C4 (counterexample).  The error surfaced by
`pullSetOfDefiConfigValues` depends on the map iteration order: over the
same loader set with the same loader outcomes — two loaders failing with
distinct errors — one admissible iteration order of the Go map returns
the mint-fee loader's error while another returns the collateral-ratio
loader's error. -/
theorem pullSet_error_depends_on_iteration_order :
    List.Perm mapOrder mapOrderSwapped
    ∧ (pullSetOfDefiConfigValues initialSettings
        (mapOrder.map fun s => (s, slotLoader outcomeBothFail s))).2 =
        some (.remote "mint fee loader failed")
    ∧ (pullSetOfDefiConfigValues initialSettings
        (mapOrderSwapped.map fun s => (s, slotLoader outcomeBothFail s))).2 =
        some (.remote "collateral ratio loader failed")
    ∧ GoError.remote "mint fee loader failed" ≠
        GoError.remote "collateral ratio loader failed" :=
  ⟨by unfold mapOrder mapOrderSwapped; exact List.Perm.swap _ _ _, rfl, rfl, by decide⟩

/-- C4 (amended).  For a fixed iteration order of the loaders map,
`pullSetOfDefiConfigValues` deterministically surfaces the error of the
first failing loader in that order; but Go leaves the map iteration
order unspecified, so across runs the surfaced error is not chosen by
declared slot order. -/
theorem pullSet_first_error_deterministic_in_order (o : DefiLoaderOutcomes)
    (order : List Slot) (ds : DefiSettings) :
    (pullSetOfDefiConfigValues ds (order.map fun s => (s, slotLoader o s))).2 =
      firstLoaderError o order :=
  pullSet_snd_eq o order ds

/-- C5.  The `FMintAddressProvider` field of the record returned by
`DefiConfiguration` is seeded from the hard-coded source literal
`0xdeec401e448d5d9132eb79ac84eb3f212d7759fb` — never fetched remotely,
but also not taken from the injected configuration: it differs from the
configured default fMint address-provider address
`defDefiFMintAddressProvider` (config/default.go line 72). -/
theorem defiConfiguration_address_provider_hardcoded :
    Except.map DefiSettings.fMintAddressProvider
        (DefiConfiguration mapOrder outcomeAllOk) =
      .ok (mustContractAddress "0xdeec401e448d5d9132eb79ac84eb3f212d7759fb")
    ∧ mustContractAddress "0xdeec401e448d5d9132eb79ac84eb3f212d7759fb" ≠
        mustContractAddress defDefiFMintAddressProvider := by
  constructor
  · simp [DefiConfiguration, mapOrder, outcomeAllOk, pullSetOfDefiConfigValues,
      pullDefiConfigValue, slotLoader, setSlot, initialSettings,
      pullDefiDecimalCorrection, bigUint64, decCountLoop, Except.map]
  · decide

/-- C6.  `pullDefiConfigValue` never coerces a missing value to zero: a
loader that succeeds with a nil result produces the error
`defi config value not available`, and a value is returned exactly when
the loader returned a non-nil result and a nil error. -/
theorem pullDefiConfigValue_no_silent_zero (r : LoaderResult) :
    (r = (none, none) →
      pullDefiConfigValue r = .error (.errorf "defi config value not available"))
    ∧ (∀ v : Int, pullDefiConfigValue r = .ok v ↔ (r.2 = none ∧ r.1 = some v)) := by
  obtain ⟨val, err⟩ := r
  cases err <;> cases val <;> simp [pullDefiConfigValue]

/-- C6 witness: the nil-result run. -/
theorem pullDefiConfigValue_no_silent_zero_witness :
    ((none, none) : LoaderResult) = (none, none)
    ∧ pullDefiConfigValue (none, none) =
        .error (.errorf "defi config value not available") :=
  ⟨rfl, (pullDefiConfigValue_no_silent_zero (none, none)).1 rfl⟩

/-- C7.  `AccountBalance` decodes the node's hex balance response into
the arbitrary-precision value (`0x1b1ae4d6e2ef500000` decodes to
`500 * 10 ^ 18`), `AccountNonce` decodes the hex transaction count into
a machine integer (`0x5` decodes to 5), and malformed hex responses —
an invalid digit, or a missing `0x` mark — yield errors, not values. -/
theorem account_decoding_end_to_end :
    AccountBalance (.ok "0x1b1ae4d6e2ef500000") = .ok (500 * 10 ^ 18)
    ∧ AccountNonce (.ok "0x5") = .ok 5
    ∧ AccountBalance (.ok "0xXYZ") = .error (.errorf "invalid hex string")
    ∧ AccountNonce (.ok "5") = .error (.errorf "hex string without 0x prefix") := by
  refine ⟨?_, ?_, ?_, ?_⟩ <;> decide

/-- C8.  The counting loop of `pullDefiDecimalCorrection` terminates on
every input: starting from any value, `decCountLoop v 0` repetitions of
division by ten — the number of iterations the loop itself performs —
reach a value at most one. -/
theorem decCountLoop_reaches_le_one (v : Nat) :
    (fun x => x / 10)^[decCountLoop v 0] v ≤ 1 := by
  induction v using Nat.strong_induction_on with
  | _ v ih =>
    by_cases h : 1 < v
    · rw [decCountLoop, if_pos h, decCountLoop_shift, Function.iterate_succ_apply]
      simpa using ih (v / 10) (Nat.div_lt_self (by omega) (by omega))
    · rw [decCountLoop, if_neg h]
      simpa using Nat.not_lt.mp h

/-- C10.  `pullDefiDecimalCorrection` counts digits on the loaded value
truncated by `big.Int.Uint64`: for every fetched scale factor `v` the
returned count is the count on `v % 2 ^ 64`, and for `v < 2 ^ 64` it
equals the count on `v` itself. -/
theorem pullDefiDecimalCorrection_uint64_truncation (v : Nat) :
    pullDefiDecimalCorrection (some (Int.ofNat v), none) =
      .ok (Int.ofNat (decCountLoop (v % 2 ^ 64) 0))
    ∧ (v < 2 ^ 64 →
      pullDefiDecimalCorrection (some (Int.ofNat v), none) =
        .ok (Int.ofNat (decCountLoop v 0))) := by
  constructor
  · simp [pullDefiDecimalCorrection, pullDefiConfigValue, bigUint64]
  · intro h
    have hv : (Int.ofNat v).natAbs % 2 ^ 64 = v := Nat.mod_eq_of_lt h
    simp only [pullDefiDecimalCorrection, pullDefiConfigValue, bigUint64, hv]

/-- C10 witness: a small in-range scale factor. -/
theorem pullDefiDecimalCorrection_uint64_truncation_witness :
    3 < 2 ^ 64
    ∧ pullDefiDecimalCorrection (some (Int.ofNat 3), none) =
        .ok (Int.ofNat (decCountLoop 3 0)) :=
  ⟨by norm_num, (pullDefiDecimalCorrection_uint64_truncation 3).2 (by norm_num)⟩

end MotifApi
